import Mathlib

/-!
Verification development for the LocalX browser file-conversion utility.

The TypeScript sources embedded here:
  src/utils/fileConversion.ts   (dispatcher and per-category converters)
  src/hooks/useFileConversion.tsx (orchestrator: size check, progress, settle)
  src/components/FileConverter.tsx (quota gate and quota increment)
  src/context/AuthContext.tsx   (quota bookkeeping)

Browser-platform effects (FileReader, Image decode, canvas 2d context,
canvas encoding, pdf.js rendering, text rasterization, the clock) are
modelled by an explicit environment record `Env`; the byte content of a
file is part of the model.  JS number arithmetic on pixel channels and
progress values is modelled with rationals.
-/

namespace LocalX

/-- Byte sequences (ArrayBuffer / Blob contents). -/
abbrev Bytes := List Nat

/-- ASCII dot, used by the extension helpers. -/
def dotChar : Char := Char.ofNat 46

/-- ASCII lower-casing of one character (String.prototype.toLowerCase on
the extension strings handled here, which are ASCII). -/
def lowerChar (c : Char) : Char :=
  if 65 ≤ c.toNat ∧ c.toNat ≤ 90 then Char.ofNat (c.toNat + 32) else c

/-- ASCII lower-casing of a string. -/
def toLowerStr (s : String) : String := String.mk (s.data.map lowerChar)

/-- Characters after the last dot; the whole list when no dot occurs.
Implements the JS idiom used by getExtension. -/
def afterLastDot : List Char → List Char
  | [] => []
  | c :: rest =>
      if rest.contains dotChar then afterLastDot rest
      else if c = dotChar then rest
      else c :: afterLastDot rest

/-- Characters strictly before the last dot; empty when no dot occurs.
Implements the JS idiom name.substring(0, name.lastIndexOf(".")), whose
value is empty when lastIndexOf returns -1. -/
def beforeLastDot : List Char → List Char
  | [] => []
  | c :: rest =>
      if rest.contains dotChar then c :: beforeLastDot rest
      else []

/-- Modelled from the spec: src/utils/formatHelpers.ts is imported by the
source but missing from the repository snapshot.  Spec 4.1: extensionOf
returns the substring after the last dot, or the whole filename when no
dot exists (documented quirk). -/
def getExtension (filename : String) : String :=
  String.mk (afterLastDot filename.data)

/-- The basename builder of convertFile:
file.name.substring(0, file.name.lastIndexOf(".")). -/
def baseFilenameOf (name : String) : String :=
  String.mk (beforeLastDot name.data)

/-- Format registry entry (spec 3: FormatDescriptor).  extensions.head is
the canonical extension used to build output filenames. -/
structure FormatDescriptor where
  id : String
  label : String
  category : String
  extensions : List String
deriving DecidableEq

/-- Modelled from the spec: the static format table of the missing
src/utils/formatHelpers.ts.  Format ids and categories are those consumed
by the converters and the UI (fileConversion.ts switches, ConversionOptions);
each descriptor carries its canonical dotted extension. -/
def formats : List FormatDescriptor := [
  { id := "png", label := "PNG Image", category := "image", extensions := [".png"] },
  { id := "jpg", label := "JPG Image", category := "image", extensions := [".jpg"] },
  { id := "jpeg", label := "JPEG Image", category := "image", extensions := [".jpeg"] },
  { id := "webp", label := "WebP Image", category := "image", extensions := [".webp"] },
  { id := "gif", label := "GIF Image", category := "image", extensions := [".gif"] },
  { id := "svg", label := "SVG Image", category := "image", extensions := [".svg"] },
  { id := "pdf", label := "PDF Document", category := "document", extensions := [".pdf"] },
  { id := "docx", label := "Word Document", category := "document", extensions := [".docx"] },
  { id := "txt", label := "Text File", category := "document", extensions := [".txt"] },
  { id := "csv", label := "CSV File", category := "document", extensions := [".csv"] },
  { id := "md", label := "Markdown", category := "document", extensions := [".md"] },
  { id := "html", label := "HTML Document", category := "document", extensions := [".html"] },
  { id := "json", label := "JSON File", category := "document", extensions := [".json"] },
  { id := "mp3", label := "MP3 Audio", category := "audio", extensions := [".mp3"] },
  { id := "wav", label := "WAV Audio", category := "audio", extensions := [".wav"] },
  { id := "ogg", label := "OGG Audio", category := "audio", extensions := [".ogg"] },
  { id := "mp4", label := "MP4 Video", category := "video", extensions := [".mp4"] },
  { id := "webm", label := "WebM Video", category := "video", extensions := [".webm"] },
  { id := "avi", label := "AVI Video", category := "video", extensions := [".avi"] },
  { id := "zip", label := "ZIP Archive", category := "archive", extensions := [".zip"] },
  { id := "tar", label := "TAR Archive", category := "archive", extensions := [".tar"] },
  { id := "3d", label := "3D Height Map", category := "3d", extensions := [".3d"] }
]

/-- Modelled from the spec: lookupByExtension of the missing formatHelpers.
Spec 4.1: matching is case-insensitive and tolerant of a missing leading
dot; an absent lookup returns an empty result, never throws. -/
def getFormatByExtension (ext : String) : Option FormatDescriptor :=
  let low := toLowerStr ext
  let dotted := if low.data.head? = some dotChar then low else "." ++ low
  formats.find? (fun f => f.extensions.contains dotted)

/-- UTF-8 best-effort decode of bytes to text (TextDecoder / readAsText),
modelled as a plain byte-to-character embedding. -/
def bytesToString (b : Bytes) : String := String.mk (b.map Char.ofNat)

/-- Encoding of text back to bytes (Blob of a string). -/
def strBytes (s : String) : Bytes := s.data.map Char.toNat

/-- Textual rendering of raw bytes, standing in for the base64 payload of
a data URL (an injective byte-to-text encoding). -/
def bytesRepr : Bytes → String
  | [] => ""
  | [n] => toString n
  | n :: rest => toString n ++ "," ++ bytesRepr rest

/-- An input file: name, raw bytes, declared MIME type (the JS File
object; its size is the byte count). -/
structure File where
  name : String
  bytes : Bytes
  mimeType : String
deriving DecidableEq

/-- JS file.size. -/
def File.size (f : File) : Nat := f.bytes.length

/-- A decoded raster surface: ImageData with a flat RGBA channel list
(4 rationals per pixel, row-major), plus the natural dimensions. -/
structure Img where
  width : Nat
  height : Nat
  data : List ℚ
deriving DecidableEq

/-- The output file of a conversion. -/
structure OutFile where
  name : String
  bytes : Bytes
  mimeType : String
deriving DecidableEq

/-- ConversionResult of fileConversion.ts. -/
structure ConversionResult where
  success : Bool
  file : Option OutFile := none
  error : Option String := none
  url : Option String := none
  is3D : Option Bool := none
deriving DecidableEq

/-- The browser platform, as an explicit environment: whether the
FileReader read succeeds, whether a 2d context is available, whether
canvas encoding (toBlob) yields a blob, the bitmap decoder, the canvas
encoder, the pdf.js first-page renderer (already scaled to width 800),
the pixels of the non-pdf document placeholder canvas, the effect of
fillText on one RGBA chunk at one chunk index, and the wall clock. -/
structure Env where
  readOk : Bool
  ctxOk : Bool
  encodeOk : Bool
  decode : Bytes → Option Img
  encode : Img → String → Bytes
  pdfRender : Bytes → Option Img
  docPlaceholder : String → List ℚ
  label : Nat → ℚ × ℚ × ℚ × ℚ → ℚ × ℚ × ℚ × ℚ
  now : String

/-- Source-over compositing of the decoded image onto the white-filled
canvas of convertImage (alpha channels run 0..255). -/
def whiteOverData : List ℚ → List ℚ
  | r :: g :: b :: a :: rest =>
      (r * (a / 255) + 255 * (1 - a / 255)) ::
      (g * (a / 255) + 255 * (1 - a / 255)) ::
      (b * (a / 255) + 255 * (1 - a / 255)) ::
      (255 : ℚ) :: whiteOverData rest
  | other => other

/-- The grayscale height-map loop of convertTo3D:
for i in steps of 4, gray = p[i]*0.299 + p[i+1]*0.587 + p[i+2]*0.114 and
p[i] = p[i+1] = p[i+2] = gray, alpha untouched.  (ImageData is always a
multiple of 4 channels; a ragged tail is returned unchanged.) -/
def grayscaleData : List ℚ → List ℚ
  | r :: g :: b :: a :: rest =>
      let gray : ℚ := r * (299 / 1000) + g * (587 / 1000) + b * (114 / 1000)
      gray :: gray :: gray :: a :: grayscaleData rest
  | other => other

/-- Colour of the depth gradient of convertTo3D at flat chunk index i of
a w-by-h canvas: two-stop linear gradient from rgba(0, 50, 150, 0.4) at
(0,0) to rgba(0, 150, 255, 0.2) at (w,h); alpha here runs 0..1. -/
def gradSrc (w h i : Nat) : ℚ × ℚ × ℚ × ℚ :=
  let x : ℚ := (i % w : Nat)
  let y : ℚ := (i / w : Nat)
  let denom : ℚ := ((w * w + h * h : Nat) : ℚ)
  let t : ℚ := if denom = 0 then 0 else (x * w + y * h) / denom
  (0, 50 + 100 * t, 150 + 105 * t, 4 / 10 - (2 / 10) * t)

/-- fillRect of the depth gradient over the whole canvas: source-over
blend of the gradient colour onto each RGBA chunk. -/
def gradientData (w h : Nat) : Nat → List ℚ → List ℚ
  | i, r :: g :: b :: a :: rest =>
      let s := gradSrc w h i
      let sa := s.2.2.2
      (s.1 * sa + r * (1 - sa)) ::
      (s.2.1 * sa + g * (1 - sa)) ::
      (s.2.2.1 * sa + b * (1 - sa)) ::
      ((sa + (a / 255) * (1 - sa)) * 255) :: gradientData w h (i + 1) rest
  | _, other => other

/-- The centered text label drawn by fillText, as an environment-supplied
per-chunk repaint of the canvas. -/
def labelData (f : Nat → ℚ × ℚ × ℚ × ℚ → ℚ × ℚ × ℚ × ℚ) :
    Nat → List ℚ → List ℚ
  | i, r :: g :: b :: a :: rest =>
      let q := f i (r, g, b, a)
      q.1 :: q.2.1 :: q.2.2.1 :: q.2.2.2 :: labelData f (i + 1) rest
  | _, other => other

/-- MIME switch of convertImage (default falls back to PNG). -/
def imageMime (targetFormat : String) : String :=
  if targetFormat = "png" then "image/png"
  else if targetFormat = "jpg" ∨ targetFormat = "jpeg" then "image/jpeg"
  else if targetFormat = "webp" then "image/webp"
  else if targetFormat = "gif" then "image/gif"
  else "image/png"

/-- The SVG wrapper document produced for an svg target: the rasterized
canvas embedded as a data-URI image element (source template; whitespace
condensed). -/
def svgWrap (w h : Nat) (dataUrl : String) : String :=
  "<svg xmlns=\"http://www.w3.org/2000/svg\" width=\"" ++ toString w ++
  "\" height=\"" ++ toString h ++ "\" viewBox=\"0 0 " ++ toString w ++ " " ++
  toString h ++ "\"><image href=\"" ++ dataUrl ++ "\" width=\"" ++ toString w ++
  "\" height=\"" ++ toString h ++ "\"/></svg>"

/-- convertImage of fileConversion.ts: decode onto a canvas of the natural
size over a white fill, then re-encode under the target MIME type; an svg
target instead wraps the rasterized PNG in an SVG document. -/
def convertImage (env : Env) (file : File) (targetFormat : String)
    (newFilename : String) : ConversionResult :=
  if env.readOk = false then { success := false, error := some "Failed to read file" }
  else match env.decode file.bytes with
    | none => { success := false, error := some "Failed to load image" }
    | some img =>
      if env.ctxOk = false then { success := false, error := some "Canvas context not available" }
      else
        let surface : Img := { img with data := whiteOverData img.data }
        if targetFormat = "svg" then
          let dataUrl := "data:image/png;base64," ++ bytesRepr (env.encode surface "image/png")
          let svgContent := svgWrap surface.width surface.height dataUrl
          { success := true,
            file := some { name := newFilename, bytes := strBytes svgContent,
                           mimeType := "image/svg+xml" },
            url := some ("blob:" ++ newFilename) }
        else
          let mt := imageMime targetFormat
          if env.encodeOk = false then
            { success := false, error := some "Failed to create image blob" }
          else
            { success := true,
              file := some { name := newFilename, bytes := env.encode surface mt,
                             mimeType := mt },
              url := some ("blob:" ++ newFilename) }

/-- Branch predicate of convertDocument: text-oriented targets. -/
def isTextTarget (targetFormat : String) : Bool :=
  (["txt", "csv", "md"] : List String).contains targetFormat

/-- Branch predicate of convertDocument: source extensions read as text
rather than as an ArrayBuffer. -/
def isTextSourceExt (name : String) : Bool :=
  (["txt", "csv", "md", "html", "json"] : List String).contains
    (toLowerStr (getExtension name))

/-- Branch predicate of convertDocument: the generated-PDF branch
(pdf target from a non-pdf source). -/
def isPdfBranch (name targetFormat : String) : Bool :=
  targetFormat == "pdf" && !(toLowerStr (getExtension name) == "pdf")

/-- Combined condition under which convertDocument reads the source with
readAsText, so that an empty read result is falsy. -/
def readsAsText (name targetFormat : String) : Bool :=
  (isTextTarget targetFormat && isTextSourceExt name) || isPdfBranch name targetFormat

/-- MIME switch of the text-target branch of convertDocument. -/
def textTargetMime (targetFormat : String) : String :=
  if targetFormat = "txt" then "text/plain"
  else if targetFormat = "csv" then "text/csv"
  else if targetFormat = "md" then "text/markdown"
  else "text/plain"

/-- MIME switch of the container-change branch of convertDocument. -/
def otherDocTargetMime (targetFormat : String) : String :=
  if targetFormat = "docx" then
    "application/vnd.openxmlformats-officedocument.wordprocessingml.document"
  else if targetFormat = "pdf" then "application/pdf"
  else "application/octet-stream"

/-- Escaping of parentheses and backslashes inside the generated PDF text
stream: content.replace with a backslash prefix. -/
def pdfEscape (s : String) : String :=
  String.mk (s.data.flatMap (fun c =>
    if c = Char.ofNat 40 ∨ c = Char.ofNat 41 ∨ c = Char.ofNat 92 then
      [Char.ofNat 92, c]
    else [c]))

/-- The minimal text-bearing PDF generated by the pdf branch of
convertDocument (source template; object boilerplate and whitespace
condensed, the interpolated lengths, provenance line and the escaped,
1000-character-truncated content kept). -/
def pdfDocContent (name content : String) : String :=
  "%PDF-1.5 1 0 obj <</Type /Catalog /Pages 2 0 R>> endobj" ++
  " 5 0 obj <</Length " ++ toString (content.length + 50) ++ ">>\nstream\n" ++
  "BT /F1 12 Tf 36 806 Td (Converted from " ++ name ++ ") Tj 0 -20 Td" ++
  " (Content:) Tj 0 -20 Td (" ++ (pdfEscape content).take 1000 ++
  ") Tj ET\nendstream\nendobj trailer <</Size 6 /Root 1 0 R>> startxref " ++
  toString (content.length + 500) ++ " %%EOF"

/-- convertDocument of fileConversion.ts.  The promise of this converter
installs no reader.onerror handler, so a failed source read never settles:
that case is modelled as none.  A source read as text that yields the
empty string is falsy and is reported as a read failure. -/
def convertDocument (env : Env) (file : File) (targetFormat : String)
    (newFilename : String) : Option ConversionResult :=
  if isTextTarget targetFormat then
    if env.readOk = false then none
    else if isTextSourceExt file.name then
      if bytesToString file.bytes = "" then
        some { success := false, error := some "Failed to read document content" }
      else
        some { success := true,
               file := some { name := newFilename,
                              bytes := strBytes (bytesToString file.bytes),
                              mimeType := textTargetMime targetFormat },
               url := some ("blob:" ++ newFilename) }
    else
      some { success := true,
             file := some { name := newFilename,
                            bytes := strBytes (bytesToString file.bytes),
                            mimeType := textTargetMime targetFormat },
             url := some ("blob:" ++ newFilename) }
  else if isPdfBranch file.name targetFormat then
    if env.readOk = false then none
    else if bytesToString file.bytes = "" then
      some { success := false, error := some "Failed to read document content" }
    else
      some { success := true,
             file := some { name := newFilename,
                            bytes := strBytes (pdfDocContent file.name (bytesToString file.bytes)),
                            mimeType := "application/pdf" },
             url := some ("blob:" ++ newFilename) }
  else
    if env.readOk = false then none
    else
      some { success := true,
             file := some { name := newFilename, bytes := file.bytes,
                            mimeType := otherDocTargetMime targetFormat },
             url := some ("blob:" ++ newFilename),
             error := some "Note: This is a basic conversion. For better results, use specialized software." }

/-- MIME switch of convertDocumentToImage (default falls back to PNG). -/
def docImageMime (targetFormat : String) : String :=
  if targetFormat = "png" then "image/png"
  else if targetFormat = "jpg" ∨ targetFormat = "jpeg" then "image/jpeg"
  else if targetFormat = "webp" then "image/webp"
  else "image/png"

/-- convertDocumentToImage of fileConversion.ts: a PDF source is rendered
by pdf.js (first page, scaled to width 800) and re-encoded; any other
document gets an 800-by-1120 placeholder canvas.  pdf.js failures are
caught and reported with the catch-block message (its appended
error.message is abbreviated here). -/
def convertDocumentToImage (env : Env) (file : File) (targetFormat : String)
    (newFilename : String) : ConversionResult :=
  if file.mimeType = "application/pdf" then
    match env.pdfRender file.bytes with
    | none =>
        { success := false,
          error := some "Failed to convert document to image. Error: render failed" }
    | some page =>
        if env.ctxOk = false then
          { success := false, error := some "Canvas context not available" }
        else if env.encodeOk = false then
          { success := false, error := some "Failed to create image from PDF" }
        else
          { success := true,
            file := some { name := newFilename,
                           bytes := env.encode page (docImageMime targetFormat),
                           mimeType := docImageMime targetFormat },
            url := some ("blob:" ++ newFilename) }
  else
    if env.ctxOk = false then
      { success := false, error := some "Canvas context not available" }
    else if env.encodeOk = false then
      { success := false, error := some "Failed to create image from document" }
    else
      { success := true,
        file := some { name := newFilename,
                       bytes := env.encode
                         { width := 800, height := 1120,
                           data := env.docPlaceholder file.name }
                         (docImageMime targetFormat),
                       mimeType := docImageMime targetFormat },
        url := some ("blob:" ++ newFilename) }

/-- MIME switch of convertImageToDocument (default falls back to plain
text). -/
def imageDocMime (targetFormat : String) : String :=
  if targetFormat = "txt" then "text/plain"
  else if targetFormat = "md" then "text/markdown"
  else if targetFormat = "html" then "text/html"
  else if targetFormat = "pdf" then "application/pdf"
  else "text/plain"

/-- Content switch of convertImageToDocument (source templates; the html
style block and pdf object boilerplate are condensed, the provenance
fields, the data URL embedding and the timestamps kept). -/
def imageDocContent (targetFormat name now dataUrl : String) : String :=
  if targetFormat = "txt" then
    "Image conversion to text\nOriginal image: " ++ name ++
    "\nConverted at: " ++ now ++
    "\n\nThis is a basic conversion of an image to text format."
  else if targetFormat = "md" then
    "# Image Conversion to Markdown\n\n## Original Image\n\n![Image](" ++ dataUrl ++
    ")\n\n*Original filename: " ++ name ++ "*\n\nConverted at: " ++ now
  else if targetFormat = "html" then
    "<!DOCTYPE html><html><head><title>Converted Image</title></head><body>" ++
    "<h1>Converted Image</h1><p>Original filename: " ++ name ++
    "</p><p>Converted at: " ++ now ++ "</p><img src=\"" ++ dataUrl ++
    "\" alt=\"Converted image\"></body></html>"
  else if targetFormat = "pdf" then
    "%PDF-1.5 1 0 obj <</Type /Catalog /Pages 2 0 R>> endobj 5 0 obj" ++
    " <</Length 150>>\nstream\nBT /F1 16 Tf 36 800 Td (Converted Image: " ++
    name ++ ") Tj 0 -30 Td (Converted at: " ++ now ++
    ") Tj ET\nendstream\nendobj trailer <</Size 6 /Root 1 0 R>> startxref 500 %%EOF"
  else
    "Converted image: " ++ name ++ "\nDate: " ++ now

/-- convertImageToDocument of fileConversion.ts: reads the image as a
data URL and emits a provenance document; only the pdf target carries an
advisory note. -/
def convertImageToDocument (env : Env) (file : File) (targetFormat : String)
    (newFilename : String) : ConversionResult :=
  if env.readOk = false then { success := false, error := some "Failed to read image file" }
  else
    let imageDataUrl := "data:" ++ file.mimeType ++ ";base64," ++ bytesRepr file.bytes
    { success := true,
      file := some { name := newFilename,
                     bytes := strBytes (imageDocContent targetFormat file.name env.now imageDataUrl),
                     mimeType := imageDocMime targetFormat },
      url := some ("blob:" ++ newFilename),
      error := if targetFormat = "pdf" then
          some "Note: This is a simple PDF. For better results, use specialized software."
        else none }

/-- MIME switch of convertAudio (default falls back to MP3). -/
def audioMime (targetFormat : String) : String :=
  if targetFormat = "mp3" then "audio/mpeg"
  else if targetFormat = "wav" then "audio/wav"
  else if targetFormat = "ogg" then "audio/ogg"
  else "audio/mpeg"

/-- convertAudio of fileConversion.ts: no transcoding, the source bytes
are rewrapped under the target MIME type with an advisory note. -/
def convertAudio (env : Env) (file : File) (targetFormat : String)
    (newFilename : String) : ConversionResult :=
  if env.readOk = false then { success := false, error := some "Failed to read audio file" }
  else
    { success := true,
      file := some { name := newFilename, bytes := file.bytes,
                     mimeType := audioMime targetFormat },
      url := some ("blob:" ++ newFilename),
      error := some "Note: This is a format container change only, not actual audio conversion" }

/-- MIME switch of convertVideo (default falls back to MP4). -/
def videoMime (targetFormat : String) : String :=
  if targetFormat = "mp4" then "video/mp4"
  else if targetFormat = "webm" then "video/webm"
  else if targetFormat = "avi" then "video/x-msvideo"
  else "video/mp4"

/-- convertVideo of fileConversion.ts: byte relabeling with an advisory
note, like convertAudio. -/
def convertVideo (env : Env) (file : File) (targetFormat : String)
    (newFilename : String) : ConversionResult :=
  if env.readOk = false then { success := false, error := some "Failed to read video file" }
  else
    { success := true,
      file := some { name := newFilename, bytes := file.bytes,
                     mimeType := videoMime targetFormat },
      url := some ("blob:" ++ newFilename),
      error := some "Note: This is a format container change only, not actual video conversion" }

/-- MIME switch of convertArchive (default falls back to ZIP). -/
def archiveMime (targetFormat : String) : String :=
  if targetFormat = "zip" then "application/zip"
  else if targetFormat = "tar" then "application/x-tar"
  else "application/zip"

/-- convertArchive of fileConversion.ts: byte relabeling with an advisory
note, like convertAudio. -/
def convertArchive (env : Env) (file : File) (targetFormat : String)
    (newFilename : String) : ConversionResult :=
  if env.readOk = false then { success := false, error := some "Failed to read archive file" }
  else
    { success := true,
      file := some { name := newFilename, bytes := file.bytes,
                     mimeType := archiveMime targetFormat },
      url := some ("blob:" ++ newFilename),
      error := some "Note: This is a format container change only, not actual archive conversion" }

/-- The composited canvas of convertTo3D: grayscale height map, then the
depth gradient, then the text label, on a surface of the natural size. -/
def to3DSurface (env : Env) (img : Img) : Img :=
  { width := img.width, height := img.height,
    data := labelData env.label 0
      (gradientData img.width img.height 0 (grayscaleData img.data)) }

/-- convertTo3D of fileConversion.ts: decode, grayscale by luminance,
gradient overlay, label, encode as PNG and tag the result is3D. -/
def convertTo3D (env : Env) (file : File) (newFilename : String) : ConversionResult :=
  if env.readOk = false then
    { success := false, error := some "Failed to read file for 3D conversion" }
  else match env.decode file.bytes with
    | none => { success := false, error := some "Failed to load image for 3D conversion" }
    | some img =>
      if env.ctxOk = false then
        { success := false, error := some "Canvas context not available" }
      else if env.encodeOk = false then
        { success := false, error := some "Failed to create height map image" }
      else
        { success := true,
          file := some { name := newFilename,
                         bytes := env.encode (to3DSurface env img) "image/png",
                         mimeType := "image/png" },
          url := some ("blob:" ++ newFilename),
          is3D := some true }

/-- The output filename built by convertFile: basename of the source plus
the canonical (first) extension of the target format. -/
def newFilenameOf (file : File) (tgt : FormatDescriptor) : String :=
  baseFilenameOf file.name ++ tgt.extensions.headD ""

/-- The body of convertFile after both formats have resolved: same-category
dispatch by category, then the three cross-category special cases, else a
rejection.  A none return value models a conversion whose promise never
settles. -/
def convertFileResolved (env : Env) (file : File) (targetFormat : String)
    (src tgt : FormatDescriptor) : Option ConversionResult :=
  if src.category = tgt.category then
    if src.category = "image" then
      some (convertImage env file targetFormat (newFilenameOf file tgt))
    else if src.category = "document" then
      convertDocument env file targetFormat (newFilenameOf file tgt)
    else if src.category = "audio" then
      some (convertAudio env file targetFormat (newFilenameOf file tgt))
    else if src.category = "video" then
      some (convertVideo env file targetFormat (newFilenameOf file tgt))
    else if src.category = "archive" then
      some (convertArchive env file targetFormat (newFilenameOf file tgt))
    else some { success := false, error := some "Unsupported category" }
  else if src.category = "document" ∧ tgt.category = "image" then
    some (convertDocumentToImage env file targetFormat (newFilenameOf file tgt))
  else if src.category = "image" ∧ tgt.category = "3d" then
    some (convertTo3D env file (newFilenameOf file tgt))
  else if src.category = "image" ∧ tgt.category = "document" then
    some (convertImageToDocument env file targetFormat (newFilenameOf file tgt))
  else
    some { success := false,
           error := some "This specific cross-category conversion is not supported. Try a different format." }

/-- convertFile of fileConversion.ts: resolve both formats (rejecting when
either fails to resolve), build the output filename from the basename and
the canonical target extension, and route. -/
def convertFile (env : Env) (file : File) (targetFormat : String) :
    Option ConversionResult :=
  match getFormatByExtension (getExtension file.name),
        getFormatByExtension targetFormat with
  | some src, some tgt => convertFileResolved env file targetFormat src tgt
  | _, _ => some { success := false, error := some "Unsupported format" }

/-- The fixed free-conversion cap of AuthContext.tsx (latest revision):
const MAX_FREE_CONVERSIONS = 10. -/
def MAX_FREE_CONVERSIONS : Nat := 10

/-- The user record of AuthContext (the fields the conversion flow
reads). -/
structure User where
  subscription : String
  conversionsUsed : Nat
  maxFreeConversions : Nat
deriving DecidableEq

/-- hasRemainingFreeConversions of AuthContext: true with no user, for a
premium subscription, or while conversionsUsed is below the cap. -/
def hasRemainingFreeConversions (user : Option User) : Bool :=
  match user with
  | none => true
  | some u =>
      if u.subscription = "premium" then true
      else if u.conversionsUsed < MAX_FREE_CONVERSIONS then true
      else false

/-- user?.subscription === premium, as read by useFileConversion. -/
def isPremiumOf (user : Option User) : Bool :=
  match user with
  | some u => u.subscription == "premium"
  | none => false

/-- The tier size limit of startConversion: 100 MiB premium, 5 MiB free. -/
def maxSizeFor (isPremium : Bool) : Nat :=
  if isPremium then 100 * 1024 * 1024 else 5 * 1024 * 1024

/-- The rejection message of the size check. -/
def fileTooLargeMsg (isPremium : Bool) : String :=
  "File too large. " ++ (if isPremium then "Premium" else "Free") ++
  " plan allows " ++ (if isPremium then "100MB" else "5MB") ++ " max."

/-- The observable outcome of one startConversion call of
useFileConversion.tsx: whether convertFile was invoked, whether the call
settled (convertFile can hang, see convertDocument), the JS return value
(null or the result), and the settled progress and error state. -/
structure StartOutcome where
  converterInvoked : Bool
  settled : Bool
  returned : Option ConversionResult
  finalProgress : Option ℚ
  finalError : Option String
deriving DecidableEq

/-- startConversion of useFileConversion.tsx: size check first (returning
null with the progress still at 0 and no converter invoked), then the real
conversion; on settle the progress jumps to 100 on success and resets to
0 on failure, with the error message surfaced. -/
def startConversion (env : Env) (isPremium : Bool) (file : File)
    (targetFormat : String) : StartOutcome :=
  if file.size > maxSizeFor isPremium then
    { converterInvoked := false, settled := true, returned := none,
      finalProgress := some 0, finalError := some (fileTooLargeMsg isPremium) }
  else
    match convertFile env file targetFormat with
    | none =>
        { converterInvoked := true, settled := false, returned := none,
          finalProgress := none, finalError := none }
    | some result =>
        if result.success then
          { converterInvoked := true, settled := true, returned := some result,
            finalProgress := some 100, finalError := none }
        else
          { converterInvoked := true, settled := true, returned := some result,
            finalProgress := some 0,
            finalError := some (result.error.getD "Conversion failed") }

/-- The progress-relevant part of the hook state during a conversion. -/
structure ProgState where
  isConverting : Bool
  progress : ℚ
deriving DecidableEq

/-- One tick of the synthetic progress interval of startConversion, with
r the Math.random() draw of that tick (0 ≤ r < 1): no change once not
converting or at the 85 ceiling, else progress := min(progress + r*2, 85). -/
def progressTick (s : ProgState) (r : ℚ) : ProgState :=
  if s.isConverting = false ∨ s.progress ≥ 85 then s
  else { s with progress := min (s.progress + r * 2) 85 }

/-- The observable outcome of one handleConvert call of
FileConverter.tsx: whether the missing-input or the quota guard fired,
the startConversion outcome when reached, how many quota-increment calls
were issued, and the user state afterwards. -/
structure HandleOutcome where
  missingInput : Bool
  quotaRejected : Bool
  outcome : Option StartOutcome
  increments : Nat
  userAfter : Option User
deriving DecidableEq

/-- incrementConversionsUsed of AuthContext applied to the local user
state. -/
def incrementUser (user : Option User) : Option User :=
  user.map (fun u => { u with conversionsUsed := u.conversionsUsed + 1 })

/-- How many incrementConversionsUsed calls the await-then-increment of
handleConvert issues for one startConversion outcome: one exactly when the
call settled with a returned result whose success flag is true and the
user is authenticated. -/
def incCount (o : StartOutcome) (isAuthenticated : Bool) : Nat :=
  if o.settled then
    match o.returned with
    | some r => if r.success && isAuthenticated then 1 else 0
    | none => 0
  else 0

/-- handleConvert of FileConverter.tsx: require a file and a target,
require remaining free conversions, run startConversion, and increment
the quota exactly when the returned result exists with success true and
the user is authenticated. -/
def handleConvert (env : Env) (user : Option User) (file : Option File)
    (targetFormat : Option String) : HandleOutcome :=
  match file, targetFormat with
  | some f, some tf =>
    if hasRemainingFreeConversions user = false then
      { missingInput := false, quotaRejected := true, outcome := none,
        increments := 0, userAfter := user }
    else
      let o := startConversion env (isPremiumOf user) f tf
      { missingInput := false, quotaRejected := false, outcome := some o,
        increments := incCount o user.isSome,
        userAfter := if incCount o user.isSome = 1 then incrementUser user else user }
  | _, _ =>
      { missingInput := true, quotaRejected := false, outcome := none,
        increments := 0, userAfter := user }

/-- A platform where every environment operation succeeds but no bitmap
decodes (enough for the non-decoding conversion paths). -/
def benignEnv : Env :=
  { readOk := true, ctxOk := true, encodeOk := true,
    decode := fun _ => none,
    encode := fun _ _ => [],
    pdfRender := fun _ => none,
    docPlaceholder := fun _ => [],
    label := fun _ p => p,
    now := "2026-01-01, 00:00:00" }

/-! ## Shared lemmas -/

/-- The ends-with relation on strings, as a suffix of the character
data. -/
def endsWithStr (s tail : String) : Prop := tail.data <:+ s.data

theorem endsWithStr_append (a b : String) : endsWithStr (a ++ b) b := by
  cases a with
  | mk la =>
    cases b with
    | mk lb => exact ⟨la, rfl⟩

theorem bytesToString_eq_empty (b : Bytes) : bytesToString b = "" ↔ b = [] := by
  constructor
  · intro h
    have h2 := congrArg String.data h
    simpa [bytesToString] using h2
  · intro h
    subst h
    rfl

theorem convertFile_resolved (env : Env) (file : File) (tfId : String)
    (src tgt : FormatDescriptor)
    (hs : getFormatByExtension (getExtension file.name) = some src)
    (ht : getFormatByExtension tfId = some tgt) :
    convertFile env file tfId = convertFileResolved env file tfId src tgt := by
  unfold convertFile
  rw [hs, ht]



theorem convertImage_ok (env : Env) (file : File) (tf nf : String)
    (hr : env.readOk = true) (hc : env.ctxOk = true) (he : env.encodeOk = true)
    (hd : (env.decode file.bytes).isSome = true) :
    (convertImage env file tf nf).success = true ∧
    ∃ f, (convertImage env file tf nf).file = some f ∧ f.name = nf := by
  obtain ⟨img, himg⟩ := Option.isSome_iff_exists.mp hd
  by_cases htf : tf = "svg"
  · simp [convertImage, hr, hc, he, himg, htf]
  · simp [convertImage, hr, hc, he, himg, htf]

theorem convertDocument_ok (env : Env) (file : File) (tf nf : String)
    (hr : env.readOk = true)
    (hne : readsAsText file.name tf = true → file.bytes ≠ []) :
    ∃ res, convertDocument env file tf nf = some res ∧ res.success = true ∧
      ∃ f, res.file = some f ∧ f.name = nf := by
  by_cases h1 : isTextTarget tf
  · by_cases h2 : isTextSourceExt file.name
    · have hb : file.bytes ≠ [] := hne (by simp [readsAsText, h1, h2])
      have hcontent : ¬(bytesToString file.bytes = "") := by
        rw [bytesToString_eq_empty]
        exact hb
      simp [convertDocument, hr, h1, h2, hcontent]
    · simp [convertDocument, hr, h1, h2]
  · by_cases h3 : isPdfBranch file.name tf
    · have hb : file.bytes ≠ [] := hne (by simp [readsAsText, h1, h3])
      have hcontent : ¬(bytesToString file.bytes = "") := by
        rw [bytesToString_eq_empty]
        exact hb
      simp [convertDocument, hr, h1, h3, hcontent]
    · simp [convertDocument, hr, h1, h3]

theorem convertAudio_eq (env : Env) (file : File) (tf nf : String)
    (hr : env.readOk = true) :
    convertAudio env file tf nf =
      { success := true,
        file := some { name := nf, bytes := file.bytes, mimeType := audioMime tf },
        url := some ("blob:" ++ nf),
        error := some "Note: This is a format container change only, not actual audio conversion" } := by
  simp [convertAudio, hr]

theorem convertVideo_eq (env : Env) (file : File) (tf nf : String)
    (hr : env.readOk = true) :
    convertVideo env file tf nf =
      { success := true,
        file := some { name := nf, bytes := file.bytes, mimeType := videoMime tf },
        url := some ("blob:" ++ nf),
        error := some "Note: This is a format container change only, not actual video conversion" } := by
  simp [convertVideo, hr]

theorem convertArchive_eq (env : Env) (file : File) (tf nf : String)
    (hr : env.readOk = true) :
    convertArchive env file tf nf =
      { success := true,
        file := some { name := nf, bytes := file.bytes, mimeType := archiveMime tf },
        url := some ("blob:" ++ nf),
        error := some "Note: This is a format container change only, not actual archive conversion" } := by
  simp [convertArchive, hr]



def rgbaChunks : List ℚ → List (ℚ × ℚ × ℚ × ℚ)
  | r :: g :: b :: a :: rest => (r, g, b, a) :: rgbaChunks rest
  | _ => []

def lum (p : ℚ × ℚ × ℚ × ℚ) : ℚ :=
  p.1 * (299 / 1000) + p.2.1 * (587 / 1000) + p.2.2.1 * (114 / 1000)

theorem grayscaleData_chunks (d : List ℚ) :
    rgbaChunks (grayscaleData d) =
      (rgbaChunks d).map (fun p => (lum p, lum p, lum p, p.2.2.2)) := by
  induction d using grayscaleData.induct with
  | case1 r g b a rest ih => simp [grayscaleData, rgbaChunks, lum, ih]
  | case2 other h =>
      rcases other with _ | ⟨x, _ | ⟨y, _ | ⟨z, _ | ⟨w, rest⟩⟩⟩⟩
      · simp [grayscaleData, rgbaChunks]
      · simp [grayscaleData, rgbaChunks]
      · simp [grayscaleData, rgbaChunks]
      · simp [grayscaleData, rgbaChunks]
      · exact (h x y z w rest rfl).elim

theorem grayscaleData_length (d : List ℚ) :
    (grayscaleData d).length = d.length := by
  induction d using grayscaleData.induct with
  | case1 r g b a rest ih => simp [grayscaleData, ih]
  | case2 other h =>
      rcases other with _ | ⟨x, _ | ⟨y, _ | ⟨z, _ | ⟨w, rest⟩⟩⟩⟩
      · simp [grayscaleData]
      · simp [grayscaleData]
      · simp [grayscaleData]
      · simp [grayscaleData]
      · exact (h x y z w rest rfl).elim

theorem gradientData_length (w h : Nat) (i : Nat) (d : List ℚ) :
    (gradientData w h i d).length = d.length := by
  induction d using rgbaChunks.induct generalizing i with
  | case1 r g b a rest ih => simp [gradientData, ih]
  | case2 other h2 =>
      rcases other with _ | ⟨x, _ | ⟨y, _ | ⟨z, _ | ⟨w2, rest⟩⟩⟩⟩
      · simp [gradientData]
      · simp [gradientData]
      · simp [gradientData]
      · simp [gradientData]
      · exact (h2 x y z w2 rest rfl).elim

theorem labelData_length (f : Nat → ℚ × ℚ × ℚ × ℚ → ℚ × ℚ × ℚ × ℚ)
    (i : Nat) (d : List ℚ) :
    (labelData f i d).length = d.length := by
  induction d using rgbaChunks.induct generalizing i with
  | case1 r g b a rest ih => simp [labelData, ih]
  | case2 other h2 =>
      rcases other with _ | ⟨x, _ | ⟨y, _ | ⟨z, _ | ⟨w2, rest⟩⟩⟩⟩
      · simp [labelData]
      · simp [labelData]
      · simp [labelData]
      · simp [labelData]
      · exact (h2 x y z w2 rest rfl).elim



def img0 : Img := { width := 1, height := 1, data := [10, 20, 30, 40] }

def env3d : Env := { benignEnv with decode := fun _ => some img0 }

/-- C6: an image-to-3d conversion of a decodable image succeeds as a PNG
tagged is3D, encoded from a surface of the source dimensions, and the
grayscale stage before the gradient and label overlays sets each pixel
R, G and B channel to the luminance 0.299 R + 0.587 G + 0.114 B of the
original pixel while preserving alpha. -/
theorem c6_heightmap_grayscale (env : Env) (file : File) (nf : String) (img : Img)
    (hr : env.readOk = true) (hd : env.decode file.bytes = some img)
    (hc : env.ctxOk = true) (he : env.encodeOk = true) :
    convertTo3D env file nf =
      { success := true,
        file := some { name := nf, bytes := env.encode (to3DSurface env img) "image/png",
                       mimeType := "image/png" },
        url := some ("blob:" ++ nf), is3D := some true } ∧
    (to3DSurface env img).width = img.width ∧
    (to3DSurface env img).height = img.height ∧
    (to3DSurface env img).data.length = img.data.length ∧
    rgbaChunks (grayscaleData img.data) =
      (rgbaChunks img.data).map (fun p => (lum p, lum p, lum p, p.2.2.2)) := by
  refine ⟨?_, rfl, rfl, ?_, grayscaleData_chunks img.data⟩
  · simp [convertTo3D, hr, hd, hc, he]
  · unfold to3DSurface
    rw [labelData_length, gradientData_length, grayscaleData_length]

/-- C6 witness: the contract at a concrete 1-by-1 image. -/
theorem c6_heightmap_grayscale_witness :
    env3d.readOk = true ∧
    env3d.decode [7] = some img0 ∧
    env3d.ctxOk = true ∧
    env3d.encodeOk = true ∧
    (convertTo3D env3d { name := "photo.png", bytes := [7], mimeType := "image/png" } "photo.png" =
      { success := true,
        file := some { name := "photo.png",
                       bytes := env3d.encode (to3DSurface env3d img0) "image/png",
                       mimeType := "image/png" },
        url := some ("blob:" ++ "photo.png"), is3D := some true } ∧
    (to3DSurface env3d img0).width = img0.width ∧
    (to3DSurface env3d img0).height = img0.height ∧
    (to3DSurface env3d img0).data.length = img0.data.length ∧
    rgbaChunks (grayscaleData img0.data) =
      (rgbaChunks img0.data).map (fun p => (lum p, lum p, lum p, p.2.2.2))) :=
  ⟨rfl, rfl, rfl, rfl,
    c6_heightmap_grayscale env3d { name := "photo.png", bytes := [7], mimeType := "image/png" }
      "photo.png" img0 rfl rfl rfl rfl⟩

/-- C2: a free-tier user at or over the cap of 10 is quota-rejected
before startConversion runs, with the counter unchanged; a free-tier user
under the cap passes the quota check. -/
theorem c2_quota_gate (env : Env) (u : User) (file : File) (tf : String)
    (hfree : u.subscription = "free") :
    MAX_FREE_CONVERSIONS = 10 ∧
    (u.conversionsUsed ≥ MAX_FREE_CONVERSIONS →
      handleConvert env (some u) (some file) (some tf) =
        { missingInput := false, quotaRejected := true, outcome := none,
          increments := 0, userAfter := some u }) ∧
    (u.conversionsUsed < MAX_FREE_CONVERSIONS →
      (handleConvert env (some u) (some file) (some tf)).quotaRejected = false) := by
  refine ⟨rfl, ?_, ?_⟩
  · intro hge
    have hrem : hasRemainingFreeConversions (some u) = false := by
      simp [hasRemainingFreeConversions, hfree, Nat.not_lt.mpr hge]
    simp [handleConvert, hrem]
  · intro hlt
    have hrem : hasRemainingFreeConversions (some u) = true := by
      simp [hasRemainingFreeConversions, hfree, hlt]
    simp [handleConvert, hrem]

/-- C2 witness: a free user with 10 of 10 conversions used is rejected
with no outcome and an unchanged counter. -/
theorem c2_quota_gate_witness :
    (({ subscription := "free", conversionsUsed := 10, maxFreeConversions := 10 } : User).subscription = "free") ∧
    (({ subscription := "free", conversionsUsed := 10, maxFreeConversions := 10 } : User).conversionsUsed ≥ MAX_FREE_CONVERSIONS) ∧
    handleConvert benignEnv (some { subscription := "free", conversionsUsed := 10, maxFreeConversions := 10 })
        (some { name := "a.mp3", bytes := [1], mimeType := "" }) (some "wav") =
      { missingInput := false, quotaRejected := true, outcome := none,
        increments := 0,
        userAfter := some { subscription := "free", conversionsUsed := 10, maxFreeConversions := 10 } } :=
  ⟨rfl, by decide,
    (c2_quota_gate benignEnv { subscription := "free", conversionsUsed := 10, maxFreeConversions := 10 }
      { name := "a.mp3", bytes := [1], mimeType := "" } "wav" rfl).2.1 (by decide)⟩



theorem incCount_le_one (o : StartOutcome) (auth : Bool) : incCount o auth ≤ 1 := by
  unfold incCount
  split
  · split
    · split
      · exact le_refl 1
      · exact Nat.zero_le 1
    · exact Nat.zero_le 1
  · exact Nat.zero_le 1

theorem startConversion_returned_settled (env : Env) (p : Bool) (file : File)
    (tf : String) (r : ConversionResult)
    (h : (startConversion env p file tf).returned = some r) :
    (startConversion env p file tf).settled = true := by
  revert h
  unfold startConversion
  split
  · intro h
    rfl
  · split
    · intro h
      simp at h
    · split
      · intro h
        rfl
      · intro h
        rfl

/-- C3: for a conversion attempt by an authenticated user, the quota
increment is issued exactly once when the returned result has success
true, never when it has success false, and never more than once. -/
theorem c3_increment_exactly_once (env : Env) (u : User) (file : File) (tf : String) :
    (handleConvert env (some u) (some file) (some tf)).increments ≤ 1 ∧
    (∀ o, (handleConvert env (some u) (some file) (some tf)).outcome = some o →
      (o.returned.map ConversionResult.success = some true →
          (handleConvert env (some u) (some file) (some tf)).increments = 1) ∧
      (o.returned.map ConversionResult.success = some false →
          (handleConvert env (some u) (some file) (some tf)).increments = 0)) := by
  by_cases hrem : hasRemainingFreeConversions (some u) = false
  · constructor
    · simp [handleConvert, hrem]
    · intro o ho
      simp [handleConvert, hrem] at ho
  · constructor
    · simp only [handleConvert]
      rw [if_neg (by simpa using hrem)]
      exact incCount_le_one _ _
    · intro o ho
      simp only [handleConvert] at ho ⊢
      rw [if_neg (by simpa using hrem)] at ho ⊢
      simp only [Option.some.injEq] at ho
      subst ho
      constructor
      · intro hsucc
        obtain ⟨r, hret, hr⟩ : ∃ r,
            (startConversion env (isPremiumOf (some u)) file tf).returned = some r ∧
              r.success = true := by
          cases hret : (startConversion env (isPremiumOf (some u)) file tf).returned with
          | none => rw [hret] at hsucc; simp at hsucc
          | some r =>
              rw [hret] at hsucc
              simp at hsucc
              exact ⟨r, rfl, hsucc⟩
        have hset := startConversion_returned_settled env (isPremiumOf (some u)) file tf r hret
        simp [HandleOutcome.increments, incCount, hset, hret, hr]
      · intro hfail
        obtain ⟨r, hret, hr⟩ : ∃ r,
            (startConversion env (isPremiumOf (some u)) file tf).returned = some r ∧
              r.success = false := by
          cases hret : (startConversion env (isPremiumOf (some u)) file tf).returned with
          | none => rw [hret] at hfail; simp at hfail
          | some r =>
              rw [hret] at hfail
              simp at hfail
              exact ⟨r, rfl, hfail⟩
        have hset := startConversion_returned_settled env (isPremiumOf (some u)) file tf r hret
        simp [HandleOutcome.increments, incCount, hset, hret, hr]

/-- A fresh free-tier user with no conversions used. -/
def freshUser : User := { subscription := "free", conversionsUsed := 0, maxFreeConversions := 10 }

/-- A small mp3 source file. -/
def mp3File : File := { name := "song.mp3", bytes := [1, 2], mimeType := "audio/mpeg" }

/-- C3 witness: a concrete successful audio relabeling by an authenticated
user issues exactly one increment. -/
theorem c3_increment_exactly_once_witness :
    (handleConvert benignEnv (some freshUser) (some mp3File) (some "wav")).increments = 1 :=
  ((c3_increment_exactly_once benignEnv freshUser mp3File "wav").2
    (startConversion benignEnv (isPremiumOf (some freshUser)) mp3File "wav")
    (by decide)).1 (by decide)



/-- C4 (amended): for every registered same-category pair in the five
categories that have a same-category converter, with a benign platform, a
decodable source for images and a non-empty source whenever the document
converter reads it as text, convertFile succeeds and the output filename
is the source basename plus the target canonical extension. -/
theorem c4_same_category_success (env : Env) (file : File) (tfId : String)
    (src tgt : FormatDescriptor)
    (hs : getFormatByExtension (getExtension file.name) = some src)
    (ht : getFormatByExtension tfId = some tgt)
    (hcat : src.category = tgt.category)
    (hfive : src.category ∈ (["image", "document", "audio", "video", "archive"] : List String))
    (hr : env.readOk = true) (hc : env.ctxOk = true) (he : env.encodeOk = true)
    (hdec : src.category = "image" → (env.decode file.bytes).isSome = true)
    (htext : src.category = "document" → readsAsText file.name tfId = true → file.bytes ≠ []) :
    ∃ res, convertFile env file tfId = some res ∧ res.success = true ∧
      ∃ f, res.file = some f ∧
        f.name = baseFilenameOf file.name ++ tgt.extensions.headD "" ∧
        endsWithStr f.name (tgt.extensions.headD "") := by
  rw [convertFile_resolved env file tfId src tgt hs ht]
  unfold convertFileResolved
  rw [if_pos hcat]
  simp only [List.mem_cons, List.not_mem_nil, or_false] at hfive
  rcases hfive with h | h | h | h | h
  · rw [if_pos h]
    obtain ⟨hsucc, f, hf, hname⟩ :=
      convertImage_ok env file tfId (newFilenameOf file tgt) hr hc he (hdec h)
    refine ⟨_, rfl, hsucc, f, hf, hname, ?_⟩
    rw [hname]
    exact endsWithStr_append _ _
  · rw [if_neg (by rw [h]; decide), if_pos h]
    obtain ⟨res, hres, hsucc, f, hf, hname⟩ :=
      convertDocument_ok env file tfId (newFilenameOf file tgt) hr (htext h)
    refine ⟨res, hres, hsucc, f, hf, hname, ?_⟩
    rw [hname]
    exact endsWithStr_append _ _
  · rw [if_neg (by rw [h]; decide), if_neg (by rw [h]; decide), if_pos h]
    rw [convertAudio_eq env file tfId (newFilenameOf file tgt) hr]
    exact ⟨_, rfl, rfl, _, rfl, rfl, endsWithStr_append _ _⟩
  · rw [if_neg (by rw [h]; decide), if_neg (by rw [h]; decide),
        if_neg (by rw [h]; decide), if_pos h]
    rw [convertVideo_eq env file tfId (newFilenameOf file tgt) hr]
    exact ⟨_, rfl, rfl, _, rfl, rfl, endsWithStr_append _ _⟩
  · rw [if_neg (by rw [h]; decide), if_neg (by rw [h]; decide),
        if_neg (by rw [h]; decide), if_neg (by rw [h]; decide), if_pos h]
    rw [convertArchive_eq env file tfId (newFilenameOf file tgt) hr]
    exact ⟨_, rfl, rfl, _, rfl, rfl, endsWithStr_append _ _⟩

/-- C4 counterexample: the claim fails as stated on two registered
same-category pairs.  An empty but readable txt source converted to csv is
reported as a read failure (the empty readAsText result is falsy), and a
3d-to-3d request falls through the category switch into the unsupported
default. -/
theorem c4_same_category_counterexample :
    ((getFormatByExtension (getExtension "notes.txt")).map FormatDescriptor.category = some "document") ∧
    ((getFormatByExtension "csv").map FormatDescriptor.category = some "document") ∧
    benignEnv.readOk = true ∧
    ((convertFile benignEnv { name := "notes.txt", bytes := [], mimeType := "text/plain" } "csv").map ConversionResult.success = some false) ∧
    ((getFormatByExtension (getExtension "model.3d")).map FormatDescriptor.category = some "3d") ∧
    ((getFormatByExtension "3d").map FormatDescriptor.category = some "3d") ∧
    ((convertFile benignEnv { name := "model.3d", bytes := [42], mimeType := "application/octet-stream" } "3d").map ConversionResult.success = some false) := by
  decide

/-- C4 witness: a one-byte txt source converts to md with the canonical
extension appended. -/
theorem c4_same_category_success_witness :
    ∃ res, convertFile benignEnv { name := "notes.txt", bytes := [65], mimeType := "text/plain" } "md" = some res ∧
      res.success = true ∧
      ∃ f, res.file = some f ∧
        f.name = baseFilenameOf "notes.txt" ++ ".md" ∧
        endsWithStr f.name ".md" :=
  c4_same_category_success benignEnv
    { name := "notes.txt", bytes := [65], mimeType := "text/plain" } "md"
    { id := "txt", label := "Text File", category := "document", extensions := [".txt"] }
    { id := "md", label := "Markdown", category := "document", extensions := [".md"] }
    (by decide) (by decide) rfl (by decide) rfl rfl rfl (by decide) (by decide)



/-- C1 (amended): cross-category routing of convertFile with a non-3d
target is a fixed mix of special cases, not one uniform policy:
document-to-image and image-to-document requests are attempted, every
other pair is rejected with the cross-category-unsupported message. -/
theorem c1_cross_category_routing (env : Env) (file : File) (tfId : String)
    (src tgt : FormatDescriptor)
    (hs : getFormatByExtension (getExtension file.name) = some src)
    (ht : getFormatByExtension tfId = some tgt)
    (hne : src.category ≠ tgt.category)
    (h3 : tgt.category ≠ "3d") :
    convertFile env file tfId =
      (if src.category = "document" ∧ tgt.category = "image" then
        some (convertDocumentToImage env file tfId (newFilenameOf file tgt))
      else if src.category = "image" ∧ tgt.category = "document" then
        some (convertImageToDocument env file tfId (newFilenameOf file tgt))
      else
        some { success := false,
               error := some "This specific cross-category conversion is not supported. Try a different format." }) := by
  rw [convertFile_resolved env file tfId src tgt hs ht]
  unfold convertFileResolved
  have h2 : ¬(src.category = "image" ∧ tgt.category = "3d") := fun hand => h3 hand.2
  rw [if_neg hne, if_neg h2]

/-- C1 witness: a png-to-txt request routes to the image-to-document
converter. -/
theorem c1_cross_category_routing_witness :
    convertFile benignEnv { name := "photo.png", bytes := [9], mimeType := "image/png" } "txt" =
      some (convertImageToDocument benignEnv { name := "photo.png", bytes := [9], mimeType := "image/png" } "txt"
        (newFilenameOf { name := "photo.png", bytes := [9], mimeType := "image/png" }
          { id := "txt", label := "Text File", category := "document", extensions := [".txt"] })) := by
  have h := c1_cross_category_routing benignEnv
    { name := "photo.png", bytes := [9], mimeType := "image/png" } "txt"
    { id := "png", label := "PNG Image", category := "image", extensions := [".png"] }
    { id := "txt", label := "Text File", category := "document", extensions := [".txt"] }
    (by decide) (by decide) (by decide) (by decide)
  simpa using h

/-- C1 counterexample: a cross-category image-to-txt request with a non-3d
target is neither rejected nor warned: it succeeds with no error message
attached, so convertFile does not apply one uniform cross-category
policy. -/
theorem c1_single_policy_counterexample :
    ((getFormatByExtension (getExtension "photo.png")).map FormatDescriptor.category = some "image") ∧
    ((getFormatByExtension "txt").map FormatDescriptor.category = some "document") ∧
    ("document" : String) ≠ "3d" ∧
    ((convertFile benignEnv { name := "photo.png", bytes := [9], mimeType := "image/png" } "txt").map ConversionResult.success = some true) ∧
    ((convertFile benignEnv { name := "photo.png", bytes := [9], mimeType := "image/png" } "txt").map ConversionResult.error = some none) := by
  decide

/-- C10: a successful byte-relabeling conversion carries a non-empty
error string together with success true, so callers must branch on the
success flag rather than on the presence of an error message. -/
theorem c10_success_with_advisory :
    ((convertFile benignEnv mp3File "wav").map ConversionResult.success = some true) ∧
    ((convertFile benignEnv mp3File "wav").map ConversionResult.error =
      some (some "Note: This is a format container change only, not actual audio conversion")) := by
  decide

/-- C7: the document converter installs no read-error handler, so a failed
source read of a document-to-document conversion never settles (modelled
as none), while the image converter reports the same platform failure as
a success-false result with a message. -/
theorem c7_document_read_divergence :
    convertFile { benignEnv with readOk := false } { name := "report.docx", bytes := [1, 2, 3], mimeType := "" } "txt" = none ∧
    convertFile { benignEnv with readOk := false } { name := "photo.png", bytes := [1, 2, 3], mimeType := "image/png" } "jpg" =
      some { success := false, error := some "Failed to read file" } := by
  decide

/-- C5: every same-category audio, video or archive conversion with a
readable source succeeds, keeps the source bytes unchanged, and carries
the advisory note that no real transcoding occurred. -/
theorem c5_relabel_advisory (env : Env) (file : File) (tfId : String)
    (src tgt : FormatDescriptor)
    (hs : getFormatByExtension (getExtension file.name) = some src)
    (ht : getFormatByExtension tfId = some tgt)
    (hcat : src.category = tgt.category)
    (hmed : src.category = "audio" ∨ src.category = "video" ∨ src.category = "archive")
    (hr : env.readOk = true) :
    ∃ res, convertFile env file tfId = some res ∧ res.success = true ∧
      (∃ f, res.file = some f ∧ f.bytes = file.bytes) ∧
      (res.error = some "Note: This is a format container change only, not actual audio conversion" ∨
       res.error = some "Note: This is a format container change only, not actual video conversion" ∨
       res.error = some "Note: This is a format container change only, not actual archive conversion") := by
  rw [convertFile_resolved env file tfId src tgt hs ht]
  unfold convertFileResolved
  rw [if_pos hcat]
  rcases hmed with h | h | h
  · rw [if_neg (by rw [h]; decide), if_neg (by rw [h]; decide), if_pos h,
        convertAudio_eq env file tfId (newFilenameOf file tgt) hr]
    exact ⟨_, rfl, rfl, ⟨_, rfl, rfl⟩, Or.inl rfl⟩
  · rw [if_neg (by rw [h]; decide), if_neg (by rw [h]; decide),
        if_neg (by rw [h]; decide), if_pos h,
        convertVideo_eq env file tfId (newFilenameOf file tgt) hr]
    exact ⟨_, rfl, rfl, ⟨_, rfl, rfl⟩, Or.inr (Or.inl rfl)⟩
  · rw [if_neg (by rw [h]; decide), if_neg (by rw [h]; decide),
        if_neg (by rw [h]; decide), if_neg (by rw [h]; decide), if_pos h,
        convertArchive_eq env file tfId (newFilenameOf file tgt) hr]
    exact ⟨_, rfl, rfl, ⟨_, rfl, rfl⟩, Or.inr (Or.inr rfl)⟩

/-- C5 witness: a concrete mp3-to-wav relabeling keeps the bytes and
carries the audio advisory. -/
theorem c5_relabel_advisory_witness :
    ∃ res, convertFile benignEnv mp3File "wav" = some res ∧ res.success = true ∧
      (∃ f, res.file = some f ∧ f.bytes = mp3File.bytes) ∧
      (res.error = some "Note: This is a format container change only, not actual audio conversion" ∨
       res.error = some "Note: This is a format container change only, not actual video conversion" ∨
       res.error = some "Note: This is a format container change only, not actual archive conversion") :=
  c5_relabel_advisory benignEnv mp3File "wav"
    { id := "mp3", label := "MP3 Audio", category := "audio", extensions := [".mp3"] }
    { id := "wav", label := "WAV Audio", category := "audio", extensions := [".wav"] }
    (by decide) (by decide) rfl (Or.inl rfl) rfl



/-- C8: the size check of startConversion rejects oversized files with
the file-too-large message before the converter is invoked, lets files at
or under the limit through to the converter, and the limits are 5 MiB for
the free tier and 100 MiB for premium. -/
theorem c8_size_gate (env : Env) (isPremium : Bool) (file : File) (tf : String) :
    (file.size > maxSizeFor isPremium →
      startConversion env isPremium file tf =
        { converterInvoked := false, settled := true, returned := none,
          finalProgress := some 0, finalError := some (fileTooLargeMsg isPremium) }) ∧
    (file.size ≤ maxSizeFor isPremium →
      (startConversion env isPremium file tf).converterInvoked = true) ∧
    maxSizeFor false = 5 * 1024 * 1024 ∧ maxSizeFor true = 100 * 1024 * 1024 := by
  refine ⟨?_, ?_, rfl, rfl⟩
  · intro h
    unfold startConversion
    rw [if_pos h]
  · intro h
    unfold startConversion
    rw [if_neg (Nat.not_lt.mpr h)]
    split
    · rfl
    · split
      · rfl
      · rfl

/-- A 6 MiB file of zero bytes. -/
def bigFile : File :=
  { name := "big.png", bytes := List.replicate (6 * 1024 * 1024) 0, mimeType := "image/png" }

/-- C8 witness: the 6 MiB file is over the free limit and is rejected
without invoking a converter. -/
theorem c8_size_gate_witness :
    bigFile.size > maxSizeFor false ∧
    startConversion benignEnv false bigFile "jpg" =
      { converterInvoked := false, settled := true, returned := none,
        finalProgress := some 0, finalError := some (fileTooLargeMsg false) } := by
  have h : bigFile.size > maxSizeFor false := by
    show 5 * 1024 * 1024 < (List.replicate (6 * 1024 * 1024) (0 : Nat)).length
    rw [List.length_replicate]
    norm_num
  exact ⟨h, (c8_size_gate benignEnv false bigFile "jpg").1 h⟩

theorem progress_foldl_le (rs : List ℚ) :
    ∀ s : ProgState, s.progress ≤ 85 → (rs.foldl progressTick s).progress ≤ 85 := by
  induction rs with
  | nil => intro s h; exact h
  | cons r rest ih =>
      intro s h
      apply ih
      unfold progressTick
      split
      · exact h
      · exact min_le_right _ _

/-- C9: the synthetic progress never decreases under a tick with a
nonnegative random draw, never reaches 100 from the initial converting
state, and on settle is exactly 100 when the returned result succeeded
and exactly 0 otherwise. -/
theorem c9_progress_contract :
    (∀ (s : ProgState) (r : ℚ), 0 ≤ r → s.progress ≤ (progressTick s r).progress) ∧
    (∀ rs : List ℚ, (rs.foldl progressTick { isConverting := true, progress := 0 }).progress < 100) ∧
    (∀ (env : Env) (isPremium : Bool) (file : File) (tf : String),
      (startConversion env isPremium file tf).settled = true →
        ((startConversion env isPremium file tf).finalProgress = some 100 ∨
         (startConversion env isPremium file tf).finalProgress = some 0) ∧
        ((startConversion env isPremium file tf).finalProgress = some 100 ↔
          (startConversion env isPremium file tf).returned.map ConversionResult.success = some true)) := by
  refine ⟨?_, ?_, ?_⟩
  · intro s r hr
    unfold progressTick
    split
    · exact le_refl _
    · rename_i h
      push_neg at h
      show s.progress ≤ min (s.progress + r * 2) 85
      exact le_min (by linarith) (le_of_lt h.2)
  · intro rs
    exact lt_of_le_of_lt
      (progress_foldl_le rs { isConverting := true, progress := 0 } (by norm_num))
      (by norm_num)
  · intro env isPremium file tf
    by_cases hsize : file.size > maxSizeFor isPremium
    · have hstart : startConversion env isPremium file tf =
          { converterInvoked := false, settled := true, returned := none,
            finalProgress := some 0, finalError := some (fileTooLargeMsg isPremium) } := by
        unfold startConversion
        rw [if_pos hsize]
      rw [hstart]
      intro _
      refine ⟨Or.inr rfl, ?_⟩
      constructor
      · intro hcontra
        simp at hcontra
      · intro hcontra
        simp at hcontra
    · cases hcf : convertFile env file tf with
      | none =>
          have hstart : startConversion env isPremium file tf =
              { converterInvoked := true, settled := false, returned := none,
                finalProgress := none, finalError := none } := by
            unfold startConversion
            rw [if_neg hsize, hcf]
          rw [hstart]
          intro hset
          simp at hset
      | some result =>
          by_cases hsucc : result.success = true
          · have hstart : startConversion env isPremium file tf =
                { converterInvoked := true, settled := true, returned := some result,
                  finalProgress := some 100, finalError := none } := by
              unfold startConversion
              rw [if_neg hsize, hcf]
              exact if_pos hsucc
            rw [hstart]
            intro _
            refine ⟨Or.inl rfl, ?_⟩
            simp [hsucc]
          · have hstart : startConversion env isPremium file tf =
                { converterInvoked := true, settled := true, returned := some result,
                  finalProgress := some 0,
                  finalError := some (result.error.getD "Conversion failed") } := by
              unfold startConversion
              rw [if_neg hsize, hcf]
              exact if_neg hsucc
            rw [hstart]
            intro _
            have hf : result.success = false := by
              cases hres : result.success
              · rfl
              · exact absurd hres hsucc
            refine ⟨Or.inr rfl, ?_⟩
            constructor
            · intro hcontra
              simp at hcontra
            · intro hcontra
              simp [hf] at hcontra

/-- C9 witness: one tick from the initial state with draw one half does
not decrease the progress. -/
theorem c9_progress_contract_witness :
    (0 : ℚ) ≤ 1 / 2 ∧
    ({ isConverting := true, progress := 0 } : ProgState).progress ≤
      (progressTick { isConverting := true, progress := 0 } (1 / 2)).progress :=
  ⟨by norm_num, c9_progress_contract.1 { isConverting := true, progress := 0 } (1 / 2) (by norm_num)⟩

end LocalX
